import Mathlib

set_option autoImplicit false
set_option maxHeartbeats 1000000

/-!
Shallow embedding of the TMDB catalog client of this repository:
the in-memory TTL cache, the retry/backoff engine, the cancellation
bridge, and the public catalog operations (search, details, poster URL).

Conventions of the embedding:
* times are `Nat` milliseconds (`Date.now()` values);
* the module-level `Map` cache is an explicit association list threaded
  through each operation;
* the asynchronous world (fetch outcomes, `Math.random()` jitter, the
  external abort signal, durations) is an explicit `FetchEnv` oracle, and
  each call returns the observable trace of events it performed.
-/

/-- `TMDB_BASE_URL` constant of the source module. -/
def TMDB_BASE_URL : String := "https://api.themoviedb.org/3"

/-- `TMDB_IMAGE_BASE_URL` constant of the source module. -/
def TMDB_IMAGE_BASE_URL : String := "https://image.tmdb.org/t/p"

/-- `DEFAULT_LANGUAGE` constant of the source module. -/
def DEFAULT_LANGUAGE : String := "pt-BR"

/-- `CACHE_TTL_IN_MS = 1000 * 60 * 5` (5 minutes). -/
def CACHE_TTL_IN_MS : Nat := 1000 * 60 * 5

/-- `MAX_RETRIES = 3`. -/
def MAX_RETRIES : Nat := 3

/-- `INITIAL_RETRY_DELAY_MS = 300`. -/
def INITIAL_RETRY_DELAY_MS : Nat := 300

/-- One entry of the module-level cache: `{ timestamp, data }`. -/
structure CacheEntry (α : Type) where
  timestamp : Nat
  data : α
  deriving Repr, DecidableEq

/-- The module-level `Map<string, CacheEntry>` as an association list
(keys are unique by construction of `cacheInsert`). -/
def Cache (α : Type) : Type := List (String × CacheEntry α)

def cacheDecEq {α : Type} [DecidableEq α] :
    (a b : List (String × CacheEntry α)) → Decidable (a = b) :=
  fun a b => inferInstanceAs (Decidable (a = b))

instance (α : Type) [DecidableEq α] : DecidableEq (Cache α) := cacheDecEq

/-- `Map.get`: first binding of the key, if any. -/
def cacheFind {α : Type} (c : Cache α) (key : String) : Option (CacheEntry α) :=
  match c with
  | [] => none
  | (k, e) :: rest => if k = key then some e else cacheFind rest key

/-- `Map.set`: replace the binding of `key` in place, or append a fresh one. -/
def cacheInsert {α : Type} (c : Cache α) (key : String) (e : CacheEntry α) : Cache α :=
  match c with
  | [] => [(key, e)]
  | (k, e0) :: rest =>
      if k = key then (k, e) :: rest else (k, e0) :: cacheInsert rest key e

/-- `Map.delete`: drop the binding of `key`. -/
def cacheErase {α : Type} (c : Cache α) (key : String) : Cache α :=
  match c with
  | [] => []
  | (k, e0) :: rest => if k = key then rest else (k, e0) :: cacheErase rest key

/-- `getCacheKey(url, cacheKey) = cacheKey ?? url`. -/
def getCacheKey (url : String) (cacheKey : Option String) : String :=
  cacheKey.getD url

/-- `setCache(url, data, cacheKey)`: store `{ timestamp: Date.now(), data }`
under the resolved key; `now` is the `Date.now()` value at the write. -/
def setCache {α : Type} (c : Cache α) (url : String) (now : Nat) (data : α)
    (cacheKey : Option String) : Cache α :=
  cacheInsert c (getCacheKey url cacheKey) ⟨now, data⟩

/-- `getCache(url, cacheKey)`: return the stored data unless the entry is
absent or expired (`Date.now() - timestamp > CACHE_TTL_IN_MS`); an expired
entry is deleted.  Returns the read result together with the cache state
after the read (JS `Date.now() - t` on a later `t` is negative, never
`> TTL`; `Nat` truncated subtraction gives `0`, which agrees). -/
def getCache {α : Type} (c : Cache α) (url : String) (cacheKey : Option String)
    (now : Nat) : Option α × Cache α :=
  let key := getCacheKey url cacheKey
  match cacheFind c key with
  | none => (none, c)
  | some cached =>
      if now - cached.timestamp > CACHE_TTL_IN_MS then (none, cacheErase c key)
      else (some cached.data, c)

/-- `clearTmdbCache()`. -/
def clearTmdbCache {α : Type} : Cache α := []

/-- `getTmdbCacheSize()`. -/
def getTmdbCacheSize {α : Type} (c : Cache α) : Nat := c.length

/-- `getRetryDelay(attempt) = INITIAL_RETRY_DELAY_MS * 2 ** (attempt - 1) + jitter`,
with `jitter = Math.random() * 100` supplied by the environment oracle. -/
def getRetryDelay (jitter : Nat → Nat) (attempt : Nat) : Nat :=
  INITIAL_RETRY_DELAY_MS * 2 ^ (attempt - 1) + jitter attempt

/-- The poster size union type `'w185' | 'w342' | 'original'`. -/
inductive PosterSize where
  | w185
  | w342
  | original
  deriving Repr, DecidableEq

/-- The literal text of a `PosterSize`. -/
def PosterSize.tok : PosterSize → String
  | .w185 => "w185"
  | .w342 => "w342"
  | .original => "original"

/-- `getPosterUrl(path, size = 'w185')`: `undefined` for a falsy path
(the TS signature declares `path : string`, but callers feed
`poster_path?: string | null`, and `!path` treats `undefined`, `null`
and `""` alike, so the path argument is modelled as `Option String`). -/
def getPosterUrl (path : Option String) (size : PosterSize := .w185) : Option String :=
  match path with
  | none => none
  | some p =>
      if p = "" then none
      else some (TMDB_IMAGE_BASE_URL ++ "/" ++ size.tok ++ p)

example : getPosterUrl (some "/abc.jpg") .w185 = some "https://image.tmdb.org/t/p/w185/abc.jpg" := by
  decide

example :
    (getCache (setCache ([] : Cache Nat) "k" 0 42 none) "k" none CACHE_TTL_IN_MS).1 = some 42 := by
  decide

/-- The error taxonomy a call can surface (`Error` values thrown by the
module, distinguished by name/origin). -/
inductive TmdbError where
  /-- missing API key: thrown by `buildUrl` before any network activity. -/
  | configError
  /-- non-ok response with status in `[400, 500)`, `name = 'ClientError'`. -/
  | clientError (status : Nat)
  /-- non-ok response with any other status (3xx, 5xx, ...), plain `Error`. -/
  | httpError (status : Nat)
  /-- `fetch` itself rejected (network failure). -/
  | networkError
  /-- `name = 'AbortError'`: the external signal cancelled the call. -/
  | abortError
  /-- the defensive fallback `Error` thrown when no `Error` was captured. -/
  | fallback
  deriving Repr, DecidableEq

/-- What the network does on one attempt, when a real request is issued. -/
inductive AttemptOutcome (α : Type) where
  /-- an HTTP response with this status arrives; `body` is its parsed JSON. -/
  | response (status : Nat) (body : α)
  /-- `fetch` rejects with a network error. -/
  | netError
  deriving Repr, DecidableEq

/-- When (if ever) the external `AbortSignal` fires during the call. -/
inductive AbortPoint where
  /-- the signal is already aborted when attempt `k` starts. -/
  | beforeAttempt (k : Nat)
  /-- the signal fires while attempt `k` has a request in flight. -/
  | duringFetch (k : Nat)
  /-- the signal fires during the backoff sleep that follows attempt `k`. -/
  | duringSleep (k : Nat)
  deriving Repr, DecidableEq

/-- The oracle for everything outside the module: per-attempt network
outcome, per-attempt `Math.random() * 100` jitter, per-attempt request
duration, the abort point of the external signal, and the `Date.now()`
value when the call starts. -/
structure FetchEnv (α : Type) where
  outcome : Nat → AttemptOutcome α
  jitter : Nat → Nat
  fetchDur : Nat → Nat
  abort : Option AbortPoint
  now : Nat

/-- `attachAbortSignal` bridges the external signal into the per-attempt
controller, so the controller of attempt `n` is already aborted at its
start exactly when the signal fired at an earlier point. -/
def abortedAtStart (abort : Option AbortPoint) (n : Nat) : Bool :=
  match abort with
  | none => false
  | some (.beforeAttempt k) => k ≤ n
  | some (.duringFetch k) => k < n
  | some (.duringSleep k) => k < n

/-- Observable events of one logical call, in order. -/
inductive Ev where
  /-- the cache was consulted under this key (`hit` = an unexpired entry). -/
  | cacheRead (key : String) (hit : Bool)
  /-- a real network request was issued for attempt `n`. -/
  | netAttempt (n : Nat)
  /-- `delay(ms)` started. -/
  | sleepStart (ms : Nat)
  /-- the external abort signal fired at this point of the call. -/
  | signalFired
  /-- `delay(ms)` ran to completion (the source `delay` never observes the
  signal, so a started sleep always completes in full). -/
  | sleepEnd (ms : Nat)
  /-- `setCache` stored a response under `key` at time `t`. -/
  | cacheWrite (key : String) (t : Nat)
  deriving Repr, DecidableEq

/-- The observable outcome of one call: its result, the `Date.now()` value
when it returned, the final cache, and the event trace. -/
def exceptDecEq {ε α : Type} [DecidableEq ε] [DecidableEq α] :
    (a b : Except ε α) → Decidable (a = b)
  | .error a, .error b =>
      if h : a = b then isTrue (by rw [h])
      else isFalse (fun hc => by cases hc; exact h rfl)
  | .error _, .ok _ => isFalse (fun hc => by cases hc)
  | .ok _, .error _ => isFalse (fun hc => by cases hc)
  | .ok a, .ok b =>
      if h : a = b then isTrue (by rw [h])
      else isFalse (fun hc => by cases hc; exact h rfl)

instance {ε α : Type} [DecidableEq ε] [DecidableEq α] : DecidableEq (Except ε α) :=
  exceptDecEq

structure FetchOut (α : Type) where
  result : Except TmdbError α
  endTime : Nat
  cache : Cache α
  trace : List Ev

instance (α : Type) [DecidableEq α] : DecidableEq (FetchOut α) := fun a b =>
  decidable_of_iff
    (a.result = b.result ∧ a.endTime = b.endTime ∧ a.cache = b.cache ∧
      a.trace = b.trace)
    (by cases a; cases b; simp)

/-- The retry loop of `tmdbFetch` (`for attempt = 1..MAX_RETRIES`),
recursing on the number of loop iterations left.  Arguments after the key:
iterations left, current `attempt`, `lastError`, current time, cache,
trace so far. -/
def tmdbLoop {α : Type} (env : FetchEnv α) (key : String) :
    Nat → Nat → Option TmdbError → Nat → Cache α → List Ev → FetchOut α
  | 0, _, lastError, t, c, tr =>
      -- loop exhausted: `throw lastError instanceof Error ? lastError : fallback`
      ⟨.error (lastError.getD .fallback), t, c, tr⟩
  | rem + 1, attempt, _lastError, t, c, tr =>
      if abortedAtStart env.abort attempt then
        -- `fetch` with an already-aborted controller rejects at once (no
        -- request goes out); the catch sees `controller.signal.aborted`
        let tr1 := if env.abort = some (.beforeAttempt attempt)
          then tr ++ [Ev.signalFired] else tr
        ⟨.error .abortError, t, c, tr1⟩
      else if env.abort = some (.duringFetch attempt) then
        -- the signal fires in flight: `fetch` rejects, the catch sees the
        -- aborted controller and throws the `AbortError`
        ⟨.error .abortError, t + env.fetchDur attempt, c,
          tr ++ [Ev.netAttempt attempt, Ev.signalFired]⟩
      else
        match env.outcome attempt with
        | .response status body =>
            if 200 ≤ status ∧ status < 300 then
              -- `response.ok`: parse, `setCache`, return
              let t1 := t + env.fetchDur attempt
              ⟨.ok body, t1, cacheInsert c key ⟨t1, body⟩,
                tr ++ [Ev.netAttempt attempt, Ev.cacheWrite key t1]⟩
            else if 400 ≤ status ∧ status < 500 then
              -- `name = 'ClientError'`: the catch rethrows it immediately
              ⟨.error (.clientError status), t + env.fetchDur attempt, c,
                tr ++ [Ev.netAttempt attempt]⟩
            else
              -- other non-ok status: retriable
              let t1 := t + env.fetchDur attempt
              let tr1 := tr ++ [Ev.netAttempt attempt]
              if attempt < MAX_RETRIES then
                let d := getRetryDelay env.jitter attempt
                let tr2 := tr1 ++ [Ev.sleepStart d] ++
                  (if env.abort = some (.duringSleep attempt)
                    then [Ev.signalFired] else []) ++ [Ev.sleepEnd d]
                tmdbLoop env key rem (attempt + 1) (some (.httpError status))
                  (t1 + d) c tr2
              else
                tmdbLoop env key rem (attempt + 1) (some (.httpError status)) t1 c tr1
        | .netError =>
            -- `fetch` rejected: retriable
            let t1 := t + env.fetchDur attempt
            let tr1 := tr ++ [Ev.netAttempt attempt]
            if attempt < MAX_RETRIES then
              let d := getRetryDelay env.jitter attempt
              let tr2 := tr1 ++ [Ev.sleepStart d] ++
                (if env.abort = some (.duringSleep attempt)
                  then [Ev.signalFired] else []) ++ [Ev.sleepEnd d]
              tmdbLoop env key rem (attempt + 1) (some .networkError) (t1 + d) c tr2
            else
              tmdbLoop env key rem (attempt + 1) (some .networkError) t1 c tr1

/-- A request URL: path plus query parameters in order.  `URL` /
`URLSearchParams` percent-encoding is not modelled (no claim depends on
it); `Url.toStr` is the serialization used as the default cache key. -/
structure Url where
  path : String
  params : List (String × String)
  deriving Repr, DecidableEq

/-- Drop every binding of `k` (the tail clean-up of `searchParams.set`). -/
def dropParam (ps : List (String × String)) (k : String) : List (String × String) :=
  match ps with
  | [] => []
  | p :: rest => if p.1 = k then dropParam rest k else p :: dropParam rest k

/-- `url.searchParams.set(k, v)`: overwrite the value of the first binding
of `k` in place, dropping any later duplicates, else append. -/
def setParam (ps : List (String × String)) (k v : String) : List (String × String) :=
  match ps with
  | [] => [(k, v)]
  | p :: rest =>
      if p.1 = k then (k, v) :: dropParam rest k
      else p :: setParam rest k v

/-- `url.searchParams.get(k)`. -/
def paramsLookup (ps : List (String × String)) (k : String) : Option String :=
  match ps with
  | [] => none
  | (k0, v) :: rest => if k0 = k then some v else paramsLookup rest k

/-- Plain serialization of a `Url` (stands in for `url.toString()`). -/
def Url.toStr (u : Url) : String :=
  u.path ++ "?" ++ String.intercalate "&" (u.params.map (fun p => p.1 ++ "=" ++ p.2))

/-- The `Object.entries(params).forEach` fold of `buildUrl`: `set` every
defined param in order, skipping `undefined`/`null` values.  Param values
arrive already stringified (`String(value)`). -/
def applyParams (ps0 : List (String × String))
    (params : List (String × Option String)) : List (String × String) :=
  params.foldl
    (fun acc p =>
      match p.2 with
      | none => acc
      | some v => setParam acc p.1 v) ps0

/-- The successful branch of `buildUrl`: set `api_key`, `language`, then
every defined param in order via `searchParams.set`. -/
def buildUrlOk (key : String) (path : String)
    (params : List (String × Option String)) : Url :=
  ⟨TMDB_BASE_URL ++ path,
    applyParams (setParam (setParam [] "api_key" key) "language" DEFAULT_LANGUAGE)
      params⟩

/-- `buildUrl(path, params)`: throws the configuration error when the API
key is absent (`process.env` read), otherwise assembles the URL. -/
def buildUrl (apiKey : Option String) (path : String)
    (params : List (String × Option String) := []) : Except TmdbError Url :=
  match apiKey with
  | none => .error .configError
  | some key => .ok (buildUrlOk key path params)

/-- `TMDBRequestOptions` (the abort signal is carried by `FetchEnv.abort`). -/
structure TMDBRequestOptions where
  params : List (String × Option String) := []
  cacheKey : Option String := none
  deriving Repr, DecidableEq

/-- `tmdbFetch(path, options)`: build the URL (the missing-key error is
thrown here, before the cache is consulted), read the cache, return a
truthy hit as-is, otherwise run the retry loop with `attempt = 1` and
`MAX_RETRIES` iterations.  `truthy` is JS truthiness of the parsed data
(the cache stores `unknown`, and the hit test is `if (cachedResponse)`);
the loop writes through `setCache` under the same resolved key. -/
def tmdbFetch {α : Type} (env : FetchEnv α) (truthy : α → Bool)
    (apiKey : Option String) (path : String) (opts : TMDBRequestOptions)
    (c : Cache α) : FetchOut α :=
  match buildUrl apiKey path opts.params with
  | .error e => ⟨.error e, env.now, c, []⟩
  | .ok url =>
      let urlStr := url.toStr
      let key := getCacheKey urlStr opts.cacheKey
      let read := getCache c urlStr opts.cacheKey env.now
      let tr0 := [Ev.cacheRead key read.1.isSome]
      match read.1 with
      | some v =>
          if truthy v then ⟨.ok v, env.now, read.2, tr0⟩
          else tmdbLoop env key MAX_RETRIES 1 none env.now read.2 tr0
      | none => tmdbLoop env key MAX_RETRIES 1 none env.now read.2 tr0

/-- The `MovieResult` payload shape (`vote_average` is a JS number,
modelled as a rational; `poster_path?: string | null` is a doubly optional
string). -/
structure MovieResult where
  id : Int
  title : String
  release_date : Option String := none
  vote_average : Option Rat := none
  poster_path : Option (Option String) := none
  overview : Option String := none
  deriving Repr, DecidableEq

/-- The parsed search payload `{ results?: MovieResult[] }`. -/
structure SearchPayload where
  results : Option (List MovieResult) := none
  deriving Repr, DecidableEq

/-- A parsed JSON object is always truthy in JS. -/
def payloadTruthy : SearchPayload → Bool := fun _ => true

/-- A parsed JSON object is always truthy in JS. -/
def movieTruthy : MovieResult → Bool := fun _ => true

/-- `term.trim()`: strip leading and trailing whitespace (structural
rendition over the character list). -/
def trimStr (s : String) : String :=
  ⟨((s.data.dropWhile Char.isWhitespace).reverse.dropWhile
      Char.isWhitespace).reverse⟩

/-- `term.toLowerCase()`: lower-case every character (structural rendition
over the character list). -/
def lowerStr (s : String) : String :=
  ⟨s.data.map Char.toLower⟩

/-- The key normalization of `searchMovies`: `term.trim().toLowerCase()`. -/
def normalizeTerm (term : String) : String :=
  lowerStr (trimStr term)

/-- Default cache key of `searchMovies`:
`options.cacheKey ?? 'search:' + term.trim().toLowerCase()`. -/
def searchCacheKey (term : String) (cacheKey : Option String) : String :=
  cacheKey.getD ("search:" ++ normalizeTerm term)

/-- The params object `{ ...options.params, include_adult: 'false',
page: '1', query: term }`: literal keys override spread ones, which the
`searchParams.set` fold of `buildUrl` reproduces on this list. -/
def searchParamsOf (opts : TMDBRequestOptions) (term : String) :
    List (String × Option String) :=
  opts.params ++
    [("include_adult", some "false"), ("page", some "1"), ("query", some term)]

/-- `searchMovies(term, options)`: delegate to `tmdbFetch` on the search
endpoint, then return `data.results ?? []`. -/
def searchMovies (env : FetchEnv SearchPayload) (apiKey : Option String)
    (term : String) (opts : TMDBRequestOptions) (c : Cache SearchPayload) :
    Except TmdbError (List MovieResult) × FetchOut SearchPayload :=
  let out := tmdbFetch env payloadTruthy apiKey "/search/movie"
    { params := searchParamsOf opts term,
      cacheKey := some (searchCacheKey term opts.cacheKey) } c
  match out.result with
  | .ok data => (.ok (data.results.getD []), out)
  | .error e => (.error e, out)

/-- Default cache key of `getMovieDetails`:
`options.cacheKey ?? 'movie:' + id`. -/
def movieCacheKey (id : Int) (cacheKey : Option String) : String :=
  cacheKey.getD ("movie:" ++ toString id)

/-- `getMovieDetails(id, options)`: delegate to `tmdbFetch` on the detail
endpoint, keeping the caller's params. -/
def getMovieDetails (env : FetchEnv MovieResult) (apiKey : Option String)
    (id : Int) (opts : TMDBRequestOptions) (c : Cache MovieResult) :
    FetchOut MovieResult :=
  tmdbFetch env movieTruthy apiKey ("/movie/" ++ toString id)
    { opts with cacheKey := some (movieCacheKey id opts.cacheKey) }
    c

/-- The cache key a `tmdbFetch` call resolves for its read and write. -/
def resolvedKey (key : String) (path : String) (opts : TMDBRequestOptions) : String :=
  getCacheKey (buildUrlOk key path opts.params).toStr opts.cacheKey

/-- The outcome classifications the catch branch treats as retriable:
everything that is neither `response.ok` nor a 4xx response. -/
def retriable {α : Type} : AttemptOutcome α → Prop
  | .response s _ => ¬(200 ≤ s ∧ s < 300) ∧ ¬(400 ≤ s ∧ s < 500)
  | .netError => True

/-- The error the catch branch records for a retriable outcome. -/
def retriableErr {α : Type} : AttemptOutcome α → TmdbError
  | .response s _ => .httpError s
  | .netError => .networkError

/-- Attempt numbers of the real network requests in a trace. -/
def netAttempts (tr : List Ev) : List Nat :=
  tr.filterMap (fun e =>
    match e with
    | .netAttempt n => some n
    | _ => none)

/-- Keys and times of the cache writes in a trace. -/
def cacheWrites (tr : List Ev) : List (String × Nat) :=
  tr.filterMap (fun e =>
    match e with
    | .cacheWrite k t => some (k, t)
    | _ => none)

/-- Whether an event is a completed sleep. -/
def isSleepEnd : Ev → Bool
  | .sleepEnd _ => true
  | _ => false

/-- Whether an event is a network request. -/
def isNetAttempt : Ev → Bool
  | .netAttempt _ => true
  | _ => false

/-- The suffix of a trace strictly after the (first) `signalFired` event;
empty when the signal never fired. -/
def afterSignal : List Ev → List Ev
  | [] => []
  | e :: rest => if e = Ev.signalFired then rest else afterSignal rest

/-- No sleep runs to completion after the external signal has fired. -/
def sleepShortCircuited (tr : List Ev) : Prop :=
  (afterSignal tr).all (fun e => !(isSleepEnd e)) = true

instance (tr : List Ev) : Decidable (sleepShortCircuited tr) :=
  inferInstanceAs (Decidable ((afterSignal tr).all (fun e => !(isSleepEnd e)) = true))

/-- No network request is issued after the external signal has fired. -/
def noAttemptAfterSignal (tr : List Ev) : Prop :=
  (afterSignal tr).all (fun e => !(isNetAttempt e)) = true

instance (tr : List Ev) : Decidable (noAttemptAfterSignal tr) :=
  inferInstanceAs (Decidable ((afterSignal tr).all (fun e => !(isNetAttempt e)) = true))

/-- Unfolding lemma: a retriable outcome on a non-final attempt records the
attempt, sleeps the backoff delay in full, and continues the loop with the
captured error. -/
theorem tmdbLoop_step_retriable {α : Type} (env : FetchEnv α) (key : String)
    (rem a : Nat) (le : Option TmdbError) (t : Nat) (c : Cache α) (tr : List Ev)
    (hnoab : abortedAtStart env.abort a = false)
    (hnof : env.abort ≠ some (.duringFetch a))
    (hr : retriable (env.outcome a))
    (ha : a < MAX_RETRIES) :
    tmdbLoop env key (rem + 1) a le t c tr =
      tmdbLoop env key rem (a + 1) (some (retriableErr (env.outcome a)))
        (t + env.fetchDur a + getRetryDelay env.jitter a) c
        (tr ++ [Ev.netAttempt a, Ev.sleepStart (getRetryDelay env.jitter a)] ++
          (if env.abort = some (.duringSleep a) then [Ev.signalFired] else []) ++
          [Ev.sleepEnd (getRetryDelay env.jitter a)]) := by
  cases ho : env.outcome a with
  | response s b =>
      rw [ho] at hr
      obtain ⟨h1, h2⟩ := hr
      simp only [tmdbLoop, hnoab, Bool.false_eq_true, if_false, ho, retriableErr]
      rw [if_neg hnof, if_neg h1, if_neg h2, if_pos ha]
      simp [List.append_assoc]
  | netError =>
      simp only [tmdbLoop, hnoab, Bool.false_eq_true, if_false, ho, retriableErr]
      rw [if_neg hnof, if_pos ha]
      simp [List.append_assoc]

/-- Unfolding lemma: a retriable outcome on the final attempt records the
attempt and continues (to loop exit) without sleeping. -/
theorem tmdbLoop_step_retriable_last {α : Type} (env : FetchEnv α) (key : String)
    (rem a : Nat) (le : Option TmdbError) (t : Nat) (c : Cache α) (tr : List Ev)
    (hnoab : abortedAtStart env.abort a = false)
    (hnof : env.abort ≠ some (.duringFetch a))
    (hr : retriable (env.outcome a))
    (ha : ¬ a < MAX_RETRIES) :
    tmdbLoop env key (rem + 1) a le t c tr =
      tmdbLoop env key rem (a + 1) (some (retriableErr (env.outcome a)))
        (t + env.fetchDur a) c (tr ++ [Ev.netAttempt a]) := by
  cases ho : env.outcome a with
  | response s b =>
      rw [ho] at hr
      obtain ⟨h1, h2⟩ := hr
      simp only [tmdbLoop, hnoab, Bool.false_eq_true, if_false, ho, retriableErr]
      rw [if_neg hnof, if_neg h1, if_neg h2, if_neg ha]
  | netError =>
      simp only [tmdbLoop, hnoab, Bool.false_eq_true, if_false, ho, retriableErr]
      rw [if_neg hnof, if_neg ha]

/-- Unfolding lemma: an exhausted loop surfaces the captured error. -/
theorem tmdbLoop_exhausted {α : Type} (env : FetchEnv α) (key : String)
    (a : Nat) (e : TmdbError) (t : Nat) (c : Cache α) (tr : List Ev) :
    tmdbLoop env key 0 a (some e) t c tr = ⟨.error e, t, c, tr⟩ := rfl

/-- Unfolding lemma: a 2xx response stores the body and returns it. -/
theorem tmdbLoop_step_success {α : Type} (env : FetchEnv α) (key : String)
    (rem a : Nat) (le : Option TmdbError) (t : Nat) (c : Cache α) (tr : List Ev)
    (s : Nat) (b : α)
    (hnoab : abortedAtStart env.abort a = false)
    (hnof : env.abort ≠ some (.duringFetch a))
    (ho : env.outcome a = .response s b)
    (hs : 200 ≤ s ∧ s < 300) :
    tmdbLoop env key (rem + 1) a le t c tr =
      ⟨.ok b, t + env.fetchDur a, cacheInsert c key ⟨t + env.fetchDur a, b⟩,
        tr ++ [Ev.netAttempt a, Ev.cacheWrite key (t + env.fetchDur a)]⟩ := by
  simp only [tmdbLoop, hnoab, Bool.false_eq_true, if_false, ho]
  rw [if_neg hnof, if_pos hs]

/-- Unfolding lemma: a 4xx response surfaces the client error at once. -/
theorem tmdbLoop_step_client {α : Type} (env : FetchEnv α) (key : String)
    (rem a : Nat) (le : Option TmdbError) (t : Nat) (c : Cache α) (tr : List Ev)
    (s : Nat) (b : α)
    (hnoab : abortedAtStart env.abort a = false)
    (hnof : env.abort ≠ some (.duringFetch a))
    (ho : env.outcome a = .response s b)
    (hs : 400 ≤ s ∧ s < 500) :
    tmdbLoop env key (rem + 1) a le t c tr =
      ⟨.error (.clientError s), t + env.fetchDur a, c, tr ++ [Ev.netAttempt a]⟩ := by
  simp only [tmdbLoop, hnoab, Bool.false_eq_true, if_false, ho]
  rw [if_neg hnof, if_neg (by omega : ¬ (200 ≤ s ∧ s < 300)), if_pos hs]

/-- Unfolding lemma: a controller already aborted when the attempt starts
surfaces the `AbortError` without issuing a request. -/
theorem tmdbLoop_step_preAborted {α : Type} (env : FetchEnv α) (key : String)
    (rem a : Nat) (le : Option TmdbError) (t : Nat) (c : Cache α) (tr : List Ev)
    (hab : abortedAtStart env.abort a = true) :
    tmdbLoop env key (rem + 1) a le t c tr =
      ⟨.error .abortError, t, c,
        if env.abort = some (.beforeAttempt a) then tr ++ [Ev.signalFired] else tr⟩ := by
  simp only [tmdbLoop, hab, if_true]

/-- Unfolding lemma: the signal firing in flight rejects the request and
surfaces the `AbortError`. -/
theorem tmdbLoop_step_duringFetch {α : Type} (env : FetchEnv α) (key : String)
    (rem a : Nat) (le : Option TmdbError) (t : Nat) (c : Cache α) (tr : List Ev)
    (hnoab : abortedAtStart env.abort a = false)
    (hf : env.abort = some (.duringFetch a)) :
    tmdbLoop env key (rem + 1) a le t c tr =
      ⟨.error .abortError, t + env.fetchDur a, c,
        tr ++ [Ev.netAttempt a, Ev.signalFired]⟩ := by
  simp only [tmdbLoop, hnoab, Bool.false_eq_true, if_false]
  rw [if_pos hf]

/-- `cacheFind` after `cacheInsert` of the same key sees the new entry. -/
theorem cacheFind_insert_self {α : Type} (c : Cache α) (k : String) (e : CacheEntry α) :
    cacheFind (cacheInsert c k e) k = some e := by
  induction c with
  | nil => simp [cacheInsert, cacheFind]
  | cons hd tl ih =>
      obtain ⟨k0, e0⟩ := hd
      by_cases h : k0 = k
      · simp [cacheInsert, h, cacheFind]
      · simp [cacheInsert, h, cacheFind, ih]

/-- A key that is not bound reads as a plain miss that leaves the cache
untouched. -/
theorem getCache_not_found {α : Type} (c : Cache α) (url : String)
    (ck : Option String) (now : Nat)
    (h : cacheFind c (getCacheKey url ck) = none) :
    getCache c url ck now = (none, c) := by
  simp only [getCache, h]

/-- Unfolding lemma: with an API key and a cache miss, `tmdbFetch` records
the read and runs the retry loop from attempt 1 over the cache left by the
read. -/
theorem tmdbFetch_miss {α : Type} (env : FetchEnv α) (truthy : α → Bool)
    (key path : String) (opts : TMDBRequestOptions) (c : Cache α)
    (hmiss : (getCache c (buildUrlOk key path opts.params).toStr opts.cacheKey env.now).1
      = none) :
    tmdbFetch env truthy (some key) path opts c =
      tmdbLoop env (resolvedKey key path opts) MAX_RETRIES 1 none env.now
        (getCache c (buildUrlOk key path opts.params).toStr opts.cacheKey env.now).2
        [Ev.cacheRead (resolvedKey key path opts) false] := by
  unfold tmdbFetch resolvedKey
  simp only [buildUrl]
  rw [hmiss]
  simp

theorem MAX_RETRIES_eq : MAX_RETRIES = 2 + 1 := rfl

/-- C9: `getPosterUrl` is pure string composition: for every non-empty
path and every size in the enumerated set it returns the image base
concatenated with `'/' + size + path` (so `('/abc.jpg', 'w185')` yields
the image base followed by `/w185/abc.jpg`), and for an empty or missing
path it returns absent. -/
theorem C9_getPosterUrl_composition :
    (∀ (p : String) (size : PosterSize), p ≠ "" →
      getPosterUrl (some p) size
        = some (TMDB_IMAGE_BASE_URL ++ "/" ++ size.tok ++ p)) ∧
    (∀ size : PosterSize, getPosterUrl none size = none) ∧
    (∀ size : PosterSize, getPosterUrl (some "") size = none) ∧
    getPosterUrl (some "/abc.jpg") PosterSize.w185
      = some (TMDB_IMAGE_BASE_URL ++ "/w185/abc.jpg") := by
  refine ⟨?_, ?_, ?_, ?_⟩
  · intro p size hp
    simp [getPosterUrl, hp]
  · intro size
    rfl
  · intro size
    rfl
  · decide

/-- Witness for C9 at the concrete path `"/abc.jpg"` and size `w342`. -/
theorem C9_getPosterUrl_composition_witness :
    getPosterUrl (some "/abc.jpg") PosterSize.w342
      = some (TMDB_IMAGE_BASE_URL ++ "/" ++ PosterSize.w342.tok ++ "/abc.jpg") :=
  C9_getPosterUrl_composition.1 "/abc.jpg" PosterSize.w342 (by decide)

/-- C4 is false at the TTL boundary: after `set(k, v)` at `t0 = 0`, the
claim says a read at `t = t0 + TTL` returns absent, but the code's expiry
test is strict (`now - timestamp > CACHE_TTL_IN_MS`), so at exactly
`t0 + TTL` the entry is still returned. -/
theorem C4_cache_freshness_counterexample :
    (getCache (setCache ([] : Cache Nat) "k" 0 42 none) "k" none
      (0 + CACHE_TTL_IN_MS)).1 = some 42 := by
  decide

/-- C4 (amended): after `set(k, v)` at `t0`, `get(k)` at `t` returns `v`
exactly when `t ≤ t0 + TTL`, and for `t > t0 + TTL` returns absent while
deleting the expired entry. -/
theorem C4_cache_freshness_amended {α : Type} (c : Cache α) (k : String)
    (v : α) (t0 t : Nat) :
    getCache (setCache c k t0 v none) k none t =
      if t ≤ t0 + CACHE_TTL_IN_MS then (some v, setCache c k t0 v none)
      else (none, cacheErase (setCache c k t0 v none) k) := by
  unfold setCache
  simp only [getCache, getCacheKey, Option.getD, cacheFind_insert_self]
  by_cases h : t ≤ t0 + CACHE_TTL_IN_MS
  · rw [if_neg (by omega), if_pos h]
  · rw [if_pos (by omega), if_neg h]

/-- C6: with no API key configured, both public operations surface the
configuration error with an empty event trace (no cache read, zero network
attempts, no retry) and an unchanged cache. -/
theorem C6_missing_key_config_error
    (envS : FetchEnv SearchPayload) (envM : FetchEnv MovieResult)
    (term : String) (id : Int) (opts : TMDBRequestOptions)
    (cS : Cache SearchPayload) (cM : Cache MovieResult) :
    (searchMovies envS none term opts cS).1 = .error .configError ∧
    (searchMovies envS none term opts cS).2.trace = [] ∧
    (searchMovies envS none term opts cS).2.cache = cS ∧
    (getMovieDetails envM none id opts cM).result = .error .configError ∧
    (getMovieDetails envM none id opts cM).trace = [] ∧
    (getMovieDetails envM none id opts cM).cache = cM :=
  ⟨rfl, rfl, rfl, rfl, rfl, rfl⟩

/-- C2: a 4xx response on a cache miss is surfaced as a client error after
exactly one network attempt: the trace ends at `netAttempt 1`, with no
backoff sleep and no second attempt. -/
theorem C2_client_error_fast_path {α : Type} (env : FetchEnv α)
    (truthy : α → Bool) (key path : String) (opts : TMDBRequestOptions)
    (c : Cache α) (s : Nat) (b : α)
    (hmiss : (getCache c (buildUrlOk key path opts.params).toStr opts.cacheKey
      env.now).1 = none)
    (hnoab : env.abort = none)
    (ho : env.outcome 1 = .response s b)
    (hs : 400 ≤ s) (hs2 : s < 500) :
    tmdbFetch env truthy (some key) path opts c =
      ⟨.error (.clientError s), env.now + env.fetchDur 1,
        (getCache c (buildUrlOk key path opts.params).toStr opts.cacheKey env.now).2,
        [Ev.cacheRead (resolvedKey key path opts) false, Ev.netAttempt 1]⟩ := by
  rw [tmdbFetch_miss env truthy key path opts c hmiss, MAX_RETRIES_eq,
    tmdbLoop_step_client env _ 2 1 none env.now _ _ s b
      (by simp [abortedAtStart, hnoab]) (by simp [hnoab]) ho ⟨hs, hs2⟩]
  simp

/-- Witness for C2: a 404 on the first attempt of a concrete call. -/
theorem C2_client_error_fast_path_witness :
    tmdbFetch (⟨fun _ => .response 404 0, fun _ => 0, fun _ => 10, none, 5⟩ :
        FetchEnv Nat) (fun _ => true) (some "KEY") "/x" {} [] =
      ⟨.error (.clientError 404), 5 + 10, [],
        [Ev.cacheRead (resolvedKey "KEY" "/x" {}) false, Ev.netAttempt 1]⟩ := by
  have h := C2_client_error_fast_path
    (⟨fun _ => .response 404 0, fun _ => 0, fun _ => 10, none, 5⟩ : FetchEnv Nat)
    (fun _ => true) "KEY" "/x" {} [] 404 0 (by decide) rfl rfl
    (by decide) (by decide)
  simpa using h

/-- C1: on a cache miss with no cancellation, when every attempt fails
retriably (network error or non-2xx/non-4xx status), the call performs
exactly `MAX_RETRIES = 3` sequential attempts, sleeping
`INITIAL_RETRY_DELAY_MS * 2 ^ (attempt - 1)` plus the attempt's jitter
(each jitter below 100 ms) between consecutive attempts, with the two
inter-attempt delays strictly increasing, and surfaces the error of the
last attempt — never the generic fallback. -/
theorem C1_retry_bound {α : Type} (env : FetchEnv α) (truthy : α → Bool)
    (key path : String) (opts : TMDBRequestOptions) (c : Cache α)
    (hmiss : (getCache c (buildUrlOk key path opts.params).toStr opts.cacheKey
      env.now).1 = none)
    (hnoab : env.abort = none)
    (hr1 : retriable (env.outcome 1))
    (hr2 : retriable (env.outcome 2))
    (hr3 : retriable (env.outcome 3))
    (hj : ∀ i, env.jitter i < 100) :
    tmdbFetch env truthy (some key) path opts c =
      ⟨.error (retriableErr (env.outcome 3)),
        env.now + env.fetchDur 1 + getRetryDelay env.jitter 1 +
          env.fetchDur 2 + getRetryDelay env.jitter 2 + env.fetchDur 3,
        (getCache c (buildUrlOk key path opts.params).toStr opts.cacheKey env.now).2,
        [Ev.cacheRead (resolvedKey key path opts) false,
          Ev.netAttempt 1,
          Ev.sleepStart (getRetryDelay env.jitter 1),
          Ev.sleepEnd (getRetryDelay env.jitter 1),
          Ev.netAttempt 2,
          Ev.sleepStart (getRetryDelay env.jitter 2),
          Ev.sleepEnd (getRetryDelay env.jitter 2),
          Ev.netAttempt 3]⟩ ∧
    getRetryDelay env.jitter 1 = INITIAL_RETRY_DELAY_MS * 2 ^ 0 + env.jitter 1 ∧
    getRetryDelay env.jitter 2 = INITIAL_RETRY_DELAY_MS * 2 ^ 1 + env.jitter 2 ∧
    getRetryDelay env.jitter 1 < getRetryDelay env.jitter 2 ∧
    retriableErr (env.outcome 3) ≠ .fallback := by
  have hno : ∀ a, abortedAtStart env.abort a = false := by
    intro a; simp [abortedAtStart, hnoab]
  have hnf : ∀ a, env.abort ≠ some (.duringFetch a) := by
    intro a; simp [hnoab]
  refine ⟨?_, rfl, rfl, ?_, ?_⟩
  · rw [tmdbFetch_miss env truthy key path opts c hmiss, MAX_RETRIES_eq,
      tmdbLoop_step_retriable env _ 2 1 none env.now _ _ (hno 1) (hnf 1) hr1
        (by decide)]
    simp only [hnoab, Nat.reduceAdd, reduceCtorEq, if_false, List.append_nil]
    rw [tmdbLoop_step_retriable env _ 1 2 (some (retriableErr (env.outcome 1)))
      _ _ _ (hno 2) (hnf 2) hr2 (by decide)]
    simp only [hnoab, Nat.reduceAdd, reduceCtorEq, if_false, List.append_nil]
    rw [tmdbLoop_step_retriable_last env _ 0 3
      (some (retriableErr (env.outcome 2))) _ _ _ (hno 3) (hnf 3) hr3
      (by decide), tmdbLoop_exhausted]
    simp
  · have h1 := hj 1
    simp only [getRetryDelay, INITIAL_RETRY_DELAY_MS]
    norm_num
    omega
  · cases h : env.outcome 3 <;> simp [retriableErr]

/-- Witness for C1: an always-500 server with jitter 7 yields three
attempts, sleeps of 307 and 607 ms, and the final 500 error. -/
theorem C1_retry_bound_witness :
    tmdbFetch (⟨fun _ => .response 500 0, fun _ => 7, fun _ => 10, none, 1000⟩ :
        FetchEnv Nat) (fun _ => true) (some "KEY") "/x" {} [] =
      ⟨.error (.httpError 500), 1944, [],
        [Ev.cacheRead (resolvedKey "KEY" "/x" {}) false,
          Ev.netAttempt 1, Ev.sleepStart 307, Ev.sleepEnd 307,
          Ev.netAttempt 2, Ev.sleepStart 607, Ev.sleepEnd 607,
          Ev.netAttempt 3]⟩ := by
  have h := C1_retry_bound
    (⟨fun _ => .response 500 0, fun _ => 7, fun _ => 10, none, 1000⟩ : FetchEnv Nat)
    (fun _ => true) "KEY" "/x" {} [] rfl rfl
    ⟨by omega, by omega⟩ ⟨by omega, by omega⟩ ⟨by omega, by omega⟩
    (by intro i; show (7 : Nat) < 100; omega)
  rw [h.1]
  decide

/-- C5: when the external signal is already aborted before the first
attempt, or fires while the first attempt is in flight, the cache-missing
call ends with the cancellation error, performs zero cache writes (its
final cache is exactly the cache left by the read), and issues no network
attempt beyond (at most) the first. -/
theorem C5_cancelled_never_caches {α : Type} (env : FetchEnv α)
    (truthy : α → Bool) (key path : String) (opts : TMDBRequestOptions)
    (c : Cache α)
    (hmiss : (getCache c (buildUrlOk key path opts.params).toStr opts.cacheKey
      env.now).1 = none)
    (hab : env.abort = some (.beforeAttempt 1) ∨ env.abort = some (.duringFetch 1)) :
    (tmdbFetch env truthy (some key) path opts c).result = .error .abortError ∧
    cacheWrites (tmdbFetch env truthy (some key) path opts c).trace = [] ∧
    (tmdbFetch env truthy (some key) path opts c).cache =
      (getCache c (buildUrlOk key path opts.params).toStr opts.cacheKey env.now).2 ∧
    (∀ n, Ev.netAttempt n ∈ (tmdbFetch env truthy (some key) path opts c).trace →
      n ≤ 1) := by
  rw [tmdbFetch_miss env truthy key path opts c hmiss, MAX_RETRIES_eq]
  rcases hab with h | h
  · rw [tmdbLoop_step_preAborted env _ 2 1 none env.now _ _
      (by simp [abortedAtStart, h]), if_pos h]
    refine ⟨rfl, by simp [cacheWrites], rfl, ?_⟩
    intro n hn
    simp at hn
  · rw [tmdbLoop_step_duringFetch env _ 2 1 none env.now _ _
      (by simp [abortedAtStart, h]) h]
    refine ⟨rfl, by simp [cacheWrites], rfl, ?_⟩
    intro n hn
    simp at hn
    omega

/-- Witness for C5: the signal fires while the only attempt is in flight. -/
theorem C5_cancelled_never_caches_witness :
    (tmdbFetch (⟨fun _ => .response 200 0, fun _ => 0, fun _ => 10,
        some (.duringFetch 1), 0⟩ : FetchEnv Nat)
      (fun _ => true) (some "KEY") "/x" {} []).result = .error .abortError ∧
    cacheWrites (tmdbFetch (⟨fun _ => .response 200 0, fun _ => 0, fun _ => 10,
        some (.duringFetch 1), 0⟩ : FetchEnv Nat)
      (fun _ => true) (some "KEY") "/x" {} []).trace = [] := by
  have h := C5_cancelled_never_caches
    (⟨fun _ => .response 200 0, fun _ => 0, fun _ => 10,
      some (.duringFetch 1), 0⟩ : FetchEnv Nat)
    (fun _ => true) "KEY" "/x" {} [] rfl (Or.inr rfl)
  exact ⟨h.1, h.2.1⟩

/-- Environment of the C3 analysis: an always-500 server whose external
signal fires during the first backoff sleep. -/
def abortDuringSleepEnv : FetchEnv Nat :=
  ⟨fun _ => .response 500 0, fun _ => 0, fun _ => 10, some (.duringSleep 1), 0⟩

/-- C3 is false as stated: with the signal firing during the pending
inter-retry sleep, the call does surface the `AbortError`, but the sleep
is not short-circuited — the source `delay` never observes the signal, so
the full sleep completes after the signal fired, before the cancellation
is raised. -/
theorem C3_cancellation_counterexample :
    (tmdbFetch abortDuringSleepEnv (fun _ => true) (some "KEY") "/x" {} []).result
        = .error .abortError ∧
    ¬ sleepShortCircuited
      (tmdbFetch abortDuringSleepEnv (fun _ => true) (some "KEY") "/x" {} []).trace := by
  exact ⟨by decide, by decide⟩

/-- C3 (amended): when the external signal fires at attempt `k` — while
the request is in flight, or during the backoff sleep that follows a
retriable attempt `k` — the cache-missing call surfaces the distinct
`AbortError` (never a client or server classification), issues no network
attempt after the signal fires, and stops with exactly attempts `1..k`
performed; but a pending inter-retry sleep is NOT short-circuited: when
the signal fires during the sleep, the full sleep completes before the
cancellation is observed. -/
theorem C3_cancellation_amended {α : Type} (env : FetchEnv α)
    (truthy : α → Bool) (key path : String) (opts : TMDBRequestOptions)
    (c : Cache α) (k : Nat)
    (hmiss : (getCache c (buildUrlOk key path opts.params).toStr opts.cacheKey
      env.now).1 = none)
    (hprev : ∀ i, 1 ≤ i → i < k → retriable (env.outcome i))
    (hab : (env.abort = some (.duringFetch k) ∧ 1 ≤ k ∧ k ≤ MAX_RETRIES) ∨
      (env.abort = some (.duringSleep k) ∧ 1 ≤ k ∧ k < MAX_RETRIES ∧
        retriable (env.outcome k))) :
    (tmdbFetch env truthy (some key) path opts c).result = .error .abortError ∧
    noAttemptAfterSignal (tmdbFetch env truthy (some key) path opts c).trace ∧
    netAttempts (tmdbFetch env truthy (some key) path opts c).trace
      = List.range' 1 k ∧
    (env.abort = some (.duringSleep k) →
      ¬ sleepShortCircuited (tmdbFetch env truthy (some key) path opts c).trace) := by
  rw [tmdbFetch_miss env truthy key path opts c hmiss, MAX_RETRIES_eq]
  rcases hab with ⟨he, hk1, hk3⟩ | ⟨he, hk1, hk3, hrk⟩
  · have hk3n : k ≤ 3 := hk3
    interval_cases k
    · rw [tmdbLoop_step_duringFetch env _ 2 1 none env.now _ _
        (by simp [abortedAtStart, he]) he]
      refine ⟨rfl, ?_, ?_, by simp [he]⟩
      · simp [noAttemptAfterSignal, afterSignal, isNetAttempt]
      · simp [netAttempts, List.range']
    · rw [tmdbLoop_step_retriable env _ 2 1 none env.now _ _
        (by simp [abortedAtStart, he]) (by simp [he]) (hprev 1 (by omega) (by omega))
        (by decide)]
      simp only [he, Nat.reduceAdd, reduceCtorEq, Option.some.injEq, if_false,
        List.append_nil]
      rw [tmdbLoop_step_duringFetch env _ 1 2 (some (retriableErr (env.outcome 1)))
        _ _ _ (by simp [abortedAtStart, he]) he]
      refine ⟨rfl, ?_, ?_, by simp [he]⟩
      · simp [noAttemptAfterSignal, afterSignal, isNetAttempt]
      · simp [netAttempts, List.range']
    · rw [tmdbLoop_step_retriable env _ 2 1 none env.now _ _
        (by simp [abortedAtStart, he]) (by simp [he]) (hprev 1 (by omega) (by omega))
        (by decide)]
      simp only [he, Nat.reduceAdd, reduceCtorEq, Option.some.injEq, if_false,
        List.append_nil]
      rw [tmdbLoop_step_retriable env _ 1 2 (some (retriableErr (env.outcome 1)))
        _ _ _ (by simp [abortedAtStart, he]) (by simp [he])
        (hprev 2 (by omega) (by omega)) (by decide)]
      simp only [he, Nat.reduceAdd, reduceCtorEq, Option.some.injEq, if_false,
        List.append_nil]
      rw [tmdbLoop_step_duringFetch env _ 0 3 (some (retriableErr (env.outcome 2)))
        _ _ _ (by simp [abortedAtStart, he]) he]
      refine ⟨rfl, ?_, ?_, by simp [he]⟩
      · simp [noAttemptAfterSignal, afterSignal, isNetAttempt]
      · simp [netAttempts, List.range']
  · have hk3n : k < 3 := hk3
    interval_cases k
    · rw [tmdbLoop_step_retriable env _ 2 1 none env.now _ _
        (by simp [abortedAtStart, he]) (by simp [he]) hrk (by decide)]
      simp only [he, Nat.reduceAdd, Option.some.injEq, if_true,
        List.append_nil, reduceIte]
      rw [tmdbLoop_step_preAborted env _ 1 2 (some (retriableErr (env.outcome 1)))
        _ _ _ (by simp [abortedAtStart, he])]
      rw [if_neg (by simp [he])]
      refine ⟨rfl, ?_, ?_, ?_⟩
      · simp [noAttemptAfterSignal, afterSignal, isNetAttempt]
      · simp [netAttempts, List.range']
      · intro _
        simp [sleepShortCircuited, afterSignal, isSleepEnd]
    · rw [tmdbLoop_step_retriable env _ 2 1 none env.now _ _
        (by simp [abortedAtStart, he]) (by simp [he]) (hprev 1 (by omega) (by omega))
        (by decide)]
      simp only [he, Nat.reduceAdd, reduceCtorEq, Option.some.injEq, if_false,
        List.append_nil]
      rw [tmdbLoop_step_retriable env _ 1 2 (some (retriableErr (env.outcome 1)))
        _ _ _ (by simp [abortedAtStart, he]) (by simp [he]) hrk (by decide)]
      simp only [he, Nat.reduceAdd, Option.some.injEq, if_true,
        List.append_nil, reduceIte]
      rw [tmdbLoop_step_preAborted env _ 0 3 (some (retriableErr (env.outcome 2)))
        _ _ _ (by simp [abortedAtStart, he])]
      rw [if_neg (by simp [he])]
      refine ⟨rfl, ?_, ?_, ?_⟩
      · simp [noAttemptAfterSignal, afterSignal, isNetAttempt]
      · simp [netAttempts, List.range']
      · intro _
        simp [sleepShortCircuited, afterSignal, isSleepEnd]

/-- Witness for C3 (amended) at the concrete during-sleep environment. -/
theorem C3_cancellation_amended_witness :
    (tmdbFetch abortDuringSleepEnv (fun _ => true) (some "KEY") "/x" {} []).result
      = .error .abortError ∧
    netAttempts
      (tmdbFetch abortDuringSleepEnv (fun _ => true) (some "KEY") "/x" {} []).trace
      = List.range' 1 1 := by
  have h := C3_cancellation_amended abortDuringSleepEnv (fun _ => true) "KEY" "/x"
    {} [] 1 rfl (by intro i h1 h2; omega)
    (Or.inr ⟨rfl, by omega, by decide, ⟨by omega, by omega⟩⟩)
  exact ⟨h.1, h.2.2.1⟩

/-- A one-element search result used by the batman scenario. -/
def batmanMovie : MovieResult := { id := 268, title := "Batman" }

/-- The parsed payload of the scenario's successful response. -/
def batmanPayload : SearchPayload := { results := some [batmanMovie] }

/-- Scenario environment of the first call: a 200 response after 10 ms. -/
def batmanEnv1 : FetchEnv SearchPayload :=
  ⟨fun _ => .response 200 batmanPayload, fun _ => 0, fun _ => 10, none, 0⟩

/-- Scenario environment of the second call, 50 ms after the first started;
its network always fails, so a successful result must come from the cache. -/
def batmanEnv2 : FetchEnv SearchPayload :=
  ⟨fun _ => .netError, fun _ => 0, fun _ => 0, none, 50⟩

/-- C7: the default search cache key is `'search:' + term.trim().toLowerCase()`,
so terms equal up to surrounding whitespace and letter case derive the same
key (in particular the three `Inception` spellings); and concretely, a
successful search for `"batman"` caches under `"search:batman"`, after
which a search for `" Batman "` is answered from the cache with zero
network attempts. -/
theorem C7_cache_key_normalization :
    (∀ t1 t2 : String, normalizeTerm t1 = normalizeTerm t2 →
      searchCacheKey t1 none = searchCacheKey t2 none) ∧
    searchCacheKey "Inception" none = searchCacheKey " inception " none ∧
    searchCacheKey "INCEPTION" none = searchCacheKey "Inception" none ∧
    (searchMovies batmanEnv1 (some "KEY") "batman" {} []).1 = .ok [batmanMovie] ∧
    cacheFind (searchMovies batmanEnv1 (some "KEY") "batman" {} []).2.cache
      "search:batman" = some ⟨10, batmanPayload⟩ ∧
    (searchMovies batmanEnv2 (some "KEY") " Batman " {}
      (searchMovies batmanEnv1 (some "KEY") "batman" {} []).2.cache).1
      = .ok [batmanMovie] ∧
    netAttempts (searchMovies batmanEnv2 (some "KEY") " Batman " {}
      (searchMovies batmanEnv1 (some "KEY") "batman" {} []).2.cache).2.trace
      = [] := by
  refine ⟨?_, by decide, by decide, by decide, by decide, by decide, by decide⟩
  intro t1 t2 h
  simp only [searchCacheKey, Option.getD, h]

/-- Witness for C7's normalization property at the spec's example terms. -/
theorem C7_cache_key_normalization_witness :
    searchCacheKey " inception " none = searchCacheKey "INCEPTION" none :=
  C7_cache_key_normalization.1 " inception " "INCEPTION" (by decide)

/-- `dropParam` leaves other keys unchanged. -/
theorem paramsLookup_dropParam_other (ps : List (String × String)) (k q : String)
    (hq : q ≠ k) : paramsLookup (dropParam ps k) q = paramsLookup ps q := by
  have hkq : ¬ k = q := fun hc => hq hc.symm
  induction ps with
  | nil => rfl
  | cons hd tl ih =>
      by_cases hh : hd.1 = k
      · simp [dropParam, paramsLookup, hh, hkq, ih]
      · simp [dropParam, paramsLookup, hh, ih]

/-- `searchParams.set` makes the key read back the written value. -/
theorem paramsLookup_setParam_self (ps : List (String × String)) (k v : String) :
    paramsLookup (setParam ps k v) k = some v := by
  induction ps with
  | nil => simp [setParam, paramsLookup]
  | cons hd tl ih =>
      by_cases hh : hd.1 = k
      · simp [setParam, paramsLookup, hh]
      · simp [setParam, paramsLookup, hh, ih]

/-- `searchParams.set` leaves other keys unchanged. -/
theorem paramsLookup_setParam_other (ps : List (String × String)) (k v q : String)
    (hq : q ≠ k) : paramsLookup (setParam ps k v) q = paramsLookup ps q := by
  have hkq : ¬ k = q := fun hc => hq hc.symm
  induction ps with
  | nil => simp [setParam, paramsLookup, hkq]
  | cons hd tl ih =>
      by_cases hh : hd.1 = k
      · simp [setParam, paramsLookup, hh, hkq,
          paramsLookup_dropParam_other tl k q hq]
      · simp [setParam, paramsLookup, hh, ih]

/-- The param fold splits over list concatenation. -/
theorem applyParams_append (ps0 : List (String × String))
    (xs ys : List (String × Option String)) :
    applyParams ps0 (xs ++ ys) = applyParams (applyParams ps0 xs) ys := by
  simp [applyParams, List.foldl_append]

/-- C8: for every term, the search request URL carries
`include_adult=false`, `page=1` and `query=term` (whatever params the
caller supplied, since the fixed entries are set last), and a successful
cache-missing call returns the payload's `results` array — the empty list
when the field is absent. -/
theorem C8_search_request_shape (key term : String) (opts : TMDBRequestOptions)
    (env : FetchEnv SearchPayload) (c : Cache SearchPayload) (s : Nat)
    (b : SearchPayload)
    (hmiss : cacheFind c (searchCacheKey term opts.cacheKey) = none)
    (hnoab : env.abort = none)
    (ho : env.outcome 1 = .response s b)
    (hs : 200 ≤ s) (hs2 : s < 300) :
    paramsLookup (buildUrlOk key "/search/movie" (searchParamsOf opts term)).params
      "include_adult" = some "false" ∧
    paramsLookup (buildUrlOk key "/search/movie" (searchParamsOf opts term)).params
      "page" = some "1" ∧
    paramsLookup (buildUrlOk key "/search/movie" (searchParamsOf opts term)).params
      "query" = some term ∧
    (searchMovies env (some key) term opts c).1 = .ok (b.results.getD []) := by
  have hparams : (buildUrlOk key "/search/movie" (searchParamsOf opts term)).params
      = setParam (setParam (setParam
          (applyParams (setParam (setParam [] "api_key" key) "language"
            DEFAULT_LANGUAGE) opts.params)
          "include_adult" "false") "page" "1") "query" term := by
    simp only [buildUrlOk, searchParamsOf]
    rw [applyParams_append]
    rfl
  refine ⟨?_, ?_, ?_, ?_⟩
  · rw [hparams, paramsLookup_setParam_other _ _ _ _ (by decide),
      paramsLookup_setParam_other _ _ _ _ (by decide),
      paramsLookup_setParam_self]
  · rw [hparams, paramsLookup_setParam_other _ _ _ _ (by decide),
      paramsLookup_setParam_self]
  · rw [hparams, paramsLookup_setParam_self]
  · have hget : getCache c (buildUrlOk key "/search/movie"
        (searchParamsOf opts term)).toStr
        (some (searchCacheKey term opts.cacheKey)) env.now = (none, c) :=
      getCache_not_found _ _ _ _ hmiss
    unfold searchMovies
    rw [tmdbFetch_miss env payloadTruthy key "/search/movie"
        ⟨searchParamsOf opts term, some (searchCacheKey term opts.cacheKey)⟩ c
        (by exact congrArg Prod.fst hget),
      MAX_RETRIES_eq,
      tmdbLoop_step_success env _ 2 1 none env.now _ _ s b
        (by simp [abortedAtStart, hnoab]) (by simp [hnoab]) ho ⟨hs, hs2⟩]

/-- Witness for C8 at the batman scenario's first call. -/
theorem C8_search_request_shape_witness :
    paramsLookup (buildUrlOk "KEY" "/search/movie"
      (searchParamsOf {} "batman")).params "query" = some "batman" ∧
    (searchMovies batmanEnv1 (some "KEY") "batman" {} []).1
      = .ok (batmanPayload.results.getD []) := by
  have h := C8_search_request_shape "KEY" "batman" {} batmanEnv1 [] 200
    batmanPayload rfl rfl rfl (by omega) (by omega)
  exact ⟨h.2.2.1, h.2.2.2⟩

/-- C10: with no API key, the configuration error is thrown even when a
fresh, unexpired entry exists under the call's resolved cache key, because
the URL (which needs the key) is built before the cache is consulted; the
trace is empty (the cache is neither read nor written) and the cache is
returned unchanged, for both public operations. -/
theorem C10_config_error_preempts_cache
    (envS : FetchEnv SearchPayload) (envM : FetchEnv MovieResult)
    (term : String) (id : Int) (opts : TMDBRequestOptions)
    (cS : Cache SearchPayload) (cM : Cache MovieResult)
    (eS : CacheEntry SearchPayload) (eM : CacheEntry MovieResult)
    (hS : cacheFind cS (searchCacheKey term opts.cacheKey) = some eS)
    (hSfresh : envS.now - eS.timestamp ≤ CACHE_TTL_IN_MS)
    (hM : cacheFind cM (movieCacheKey id opts.cacheKey) = some eM)
    (hMfresh : envM.now - eM.timestamp ≤ CACHE_TTL_IN_MS) :
    (searchMovies envS none term opts cS).1 = .error .configError ∧
    (searchMovies envS none term opts cS).2.trace = [] ∧
    (searchMovies envS none term opts cS).2.cache = cS ∧
    (getMovieDetails envM none id opts cM).result = .error .configError ∧
    (getMovieDetails envM none id opts cM).trace = [] ∧
    (getMovieDetails envM none id opts cM).cache = cM :=
  ⟨rfl, rfl, rfl, rfl, rfl, rfl⟩

/-- Witness for C10: fresh entries for both default keys, 10 ms old. -/
theorem C10_config_error_preempts_cache_witness :
    (searchMovies (⟨fun _ => .netError, fun _ => 0, fun _ => 0, none, 10⟩ :
        FetchEnv SearchPayload) none "batman" {}
      [("search:batman", ⟨0, batmanPayload⟩)]).1 = .error .configError ∧
    (getMovieDetails (⟨fun _ => .netError, fun _ => 0, fun _ => 0, none, 10⟩ :
        FetchEnv MovieResult) none 680 {}
      [("movie:680", ⟨0, batmanMovie⟩)]).result = .error .configError := by
  have h := C10_config_error_preempts_cache
    (⟨fun _ => .netError, fun _ => 0, fun _ => 0, none, 10⟩ : FetchEnv SearchPayload)
    (⟨fun _ => .netError, fun _ => 0, fun _ => 0, none, 10⟩ : FetchEnv MovieResult)
    "batman" 680 {} [("search:batman", ⟨0, batmanPayload⟩)]
    [("movie:680", ⟨0, batmanMovie⟩)] ⟨0, batmanPayload⟩ ⟨0, batmanMovie⟩
    (by decide) (by decide) (by decide) (by decide)
  exact ⟨h.1, h.2.2.2.1⟩
